import Mathlib

/-!
Verification model of the DART tissue-dissection wizard.

This file gives a shallow embedding of the parts of the repository
(`src/main/images.py`, `src/main/pages.py`, `src/main/utils.py`,
`src/main/main.py`, `src/main/constants.py`) that the checked claims are
about: the Slide/Target data model with its calibration-point and landmark
bookkeeping, the SlideProcessor calibration-point canonicalization, the
wizard navigation controller, the Exporter page's selection and XML-writing
logic (including Python name resolution, since two call sites reference
undefined names), and the regularization energy of the registration
optimizer. Each definition's doc comment points at the source lines it
embeds. Theorems about the embedding follow all definitions.
-/

namespace DART

/-- A 2D point clicked by the operator, stored as the pair (x, y) of integer
pixel coordinates; calibration points are committed as two-element Python
lists [x, y] (pages.py 669-671). -/
abbrev Point := ℤ × ℤ

/-- Errors raised while executing the Python source. `nameError n` models the
NameError the interpreter raises when an unbound name n is evaluated;
`indexError` models IndexError from indexing an empty list; `exception msg`
models an explicit raise of Exception. The interpolated slide/target numbers
of the source's f-string messages are omitted from the modelled text. -/
inductive PyError where
  | exception (msg : String)
  | nameError (missing : String)
  | indexError
  deriving DecidableEq

/-- The dictionary returned by LDDMM_3D_LBGFS (utils.py 188-196), holding the
final affine A, the velocity field v and its grid xv, the three static weight
masks WM, WB, WA, and the final sample coordinates Xs, all detached. The
navigation-level claims depend only on whether a result is present on a
target, so the numeric contents are not carried here; the optimizer's
numerics are modelled separately in the LDDMM namespace below. -/
inductive TransformResult where
  | mk
  deriving DecidableEq

/-- The per-target state of images.py's Target that the claims touch
(images.py 211-252): the pixel offset of the crop inside its parent slide,
the raster extents img_original.shape[0] (height) and img_original.shape[1]
(width), the two parallel landmark lists of the landmarks dict with their
count, the registration result, the automatic segmentation, and the
insertion-ordered region_boundaries dict mapping a region-cluster name to a
closed boundary polygon given as (row, column) vertices. -/
structure Target where
  x_offset : ℤ
  y_offset : ℤ
  height : ℤ
  width : ℤ
  landmarks_target : List Point
  landmarks_atlas : List Point
  num_landmarks : ℤ
  transform : Option TransformResult
  seg_stalign : Option Unit
  region_boundaries : List (String × List Point)
  deriving DecidableEq

/-- The landmark/registration state of a freshly constructed Target
(images.py 213-252): empty parallel landmark lists, zero count, no transform,
no automatic segmentation, no region boundaries; the geometry fields are the
constructor's crop arguments. -/
def Target.init (x y h w : ℤ) : Target :=
  { x_offset := x, y_offset := y, height := h, width := w,
    landmarks_target := [], landmarks_atlas := [], num_landmarks := 0,
    transform := none, seg_stalign := none, region_boundaries := [] }

/-- Target.add_landmarks (images.py 353-356): append the target-side and
atlas-side points to the two parallel lists and increment the count. -/
def Target.add_landmarks (t : Target) (target_point atlas_point : Point) : Target :=
  { t with
    landmarks_target := t.landmarks_target ++ [target_point]
    landmarks_atlas := t.landmarks_atlas ++ [atlas_point]
    num_landmarks := t.num_landmarks + 1 }

/-- Target.remove_landmarks (images.py 358-362): pop the last pair from both
lists and decrement the count, but only when num_landmarks > 0; the method
body has no else branch and contains no raise statement, so the error
component of the result is always none. -/
def Target.remove_landmarks (t : Target) : Target × Option PyError :=
  if t.num_landmarks > 0 then
    ({ t with
        landmarks_target := t.landmarks_target.dropLast
        landmarks_atlas := t.landmarks_atlas.dropLast
        num_landmarks := t.num_landmarks - 1 }, none)
  else (t, none)

/-- One call in a sequence of landmark operations on a Target. -/
inductive LandmarkOp where
  | add (target_point atlas_point : Point)
  | remove
  deriving DecidableEq

/-- The state a Target is left in after one landmark method call
(a remove call never raises, so its state component is total). -/
def applyLandmarkOp (t : Target) : LandmarkOp → Target
  | .add tp ap => t.add_landmarks tp ap
  | .remove => (t.remove_landmarks).1

/-- The parallel-lists invariant of the landmark store: both lists of the
landmarks dict have the same length, num_landmarks equals that length, and
the count is never negative. -/
def landmarksParallel (t : Target) : Prop :=
  t.landmarks_target.length = t.landmarks_atlas.length ∧
  t.num_landmarks = (t.landmarks_target.length : ℤ) ∧
  0 ≤ t.num_landmarks

/-- The per-slide state of images.py's Slide that the claims touch
(images.py 155-209): source filename, target list with its count, and the
calibration-point list with its count. -/
structure Slide where
  filename : String
  targets : List Target
  numTargets : ℤ
  calibration_points : List Point
  numCalibrationPoints : ℤ
  deriving DecidableEq

/-- A Slide as constructed during Starter (images.py 157-165): no targets and
no calibration points yet. -/
def Slide.init (filename : String) : Slide :=
  { filename := filename, targets := [], numTargets := 0,
    calibration_points := [], numCalibrationPoints := 0 }

/-- Slide.add_target (images.py 187-193): append a new Target crop and
increment the count. -/
def Slide.add_target (s : Slide) (t : Target) : Slide :=
  { s with targets := s.targets ++ [t], numTargets := s.numTargets + 1 }

/-- Slide.add_calibration_point (images.py 199-203): append the point and
increment the count when fewer than 3 points are stored, else raise
("Cannot have more than 3 Calibration points") leaving the slide unchanged. -/
def Slide.add_calibration_point (s : Slide) (p : Point) : Slide × Option PyError :=
  if s.numCalibrationPoints < 3 then
    ({ s with calibration_points := s.calibration_points ++ [p],
              numCalibrationPoints := s.numCalibrationPoints + 1 }, none)
  else (s, some (.exception ("Cannot have more than 3 Calibration points")))

/-- Slide.remove_calibration_point (images.py 205-209): pop the last point
and decrement the count when the count is positive, else raise
("No Calibration Points to remove") leaving the slide unchanged. -/
def Slide.remove_calibration_point (s : Slide) : Slide × Option PyError :=
  if s.numCalibrationPoints > 0 then
    ({ s with calibration_points := s.calibration_points.dropLast,
              numCalibrationPoints := s.numCalibrationPoints - 1 }, none)
  else (s, some (.exception ("No Calibration Points to remove")))

/-- Python comparison of two [x, y] coordinate lists, as used by the
parameterless list.sort() at pages.py 727: lexicographic ascending. -/
def pointLexLe (p q : Point) : Prop :=
  p.1 < q.1 ∨ (p.1 = q.1 ∧ p.2 ≤ q.2)

instance : DecidableRel pointLexLe := fun p q => by
  unfold pointLexLe; infer_instance

instance : IsTotal Point pointLexLe :=
  ⟨fun p q => by unfold pointLexLe; omega⟩

instance : IsTrans Point pointLexLe :=
  ⟨fun p q r hpq hqr => by unfold pointLexLe at *; omega⟩

/-- pointLexLe is antisymmetric, so sorted lists under it are unique among
permutations. -/
instance : IsAntisymm Point pointLexLe :=
  ⟨fun p q h1 h2 => by
    obtain ⟨px, py⟩ := p
    obtain ⟨qx, qy⟩ := q
    unfold pointLexLe at h1 h2
    simp only [Prod.mk.injEq]
    omega⟩

/-- The key=lambda point: point[1] comparison of the sorted(...) call at
pages.py 728-731: ascending y only. -/
def yLe (p q : Point) : Prop := p.2 ≤ q.2

instance : DecidableRel yLe := fun p q => by
  unfold yLe; infer_instance

instance : IsTotal Point yLe :=
  ⟨fun p q => by unfold yLe; omega⟩

instance : IsTrans Point yLe :=
  ⟨fun p q r hpq hqr => by unfold yLe at *; omega⟩

/-- The calibration-point reordering performed per slide by
SlideProcessor.done (pages.py 725-731): slide.calibration_points.sort() — a
stable ascending sort, lexicographic on the [x, y] lists — followed by
calibration_points[1:] = sorted(calibration_points[1:], key=point[1]), a
stable ascending sort of the remaining points by y. Python's stable sorts
are modelled by insertion sort, which is stable. -/
def canonicalizePoints (l : List Point) : List Point :=
  match List.insertionSort pointLexLe l with
  | [] => []
  | p :: rest => p :: List.insertionSort yLe rest

/-- Modelled from the spec: the shared canonical per-target identifier helper
get_filename(slide_index, target_index), called by SlideProcessor.done
(pages.py 749, 761), TargetProcessor.done (1783) and VisuAlignRunner (1830)
but defined in no module shipped under src. Section 9 of the spec records it
as a deterministic (slideIndex, targetIndex) -> identifier naming convention
and section 6 gives the manifest row format "slide#_target#". -/
def get_filename (slide_index target_index : ℕ) : String :=
  toString slide_index ++ "_" ++ toString target_index

/-- The target_coordinates.txt manifest written on SlideProcessor.done
success (pages.py 744-749): a header row, then one row per target of every
slide naming it with get_filename and giving its (x, y) offset. -/
def targetCoordinatesManifest (slides : List Slide) : List String :=
  ("slide#_target# : X Y") ::
    (slides.enum.map (fun si =>
      si.2.targets.enum.map (fun ti =>
        get_filename si.1 ti.1 ++ " : " ++ toString ti.2.x_offset ++ " " ++
          toString ti.2.y_offset))).flatten

/-- The calibration_points.txt manifest written on SlideProcessor.done
success (pages.py 751-756): a header row, then one row per calibration point
of every slide. -/
def calibrationPointsManifest (slides : List Slide) : List String :=
  ("slide# : X Y") ::
    (slides.enum.map (fun si =>
      si.2.calibration_points.map (fun p =>
        toString si.1 ++ " : " ++ toString p.1 ++ " " ++ toString p.2))).flatten

/-- The per-slide validation loop of SlideProcessor.done (pages.py 717-742):
for each slide in order, e is set by the no-targets check, then overwritten
by the calibration-count check; when the slide has exactly 3 calibration
points they are canonically reordered even if the target check had already
failed; the first slide left with a pending error has the error shown and
re-raised, which stops the loop (later slides keep their state). -/
def SlideProcessor.doneLoop : List Slide → List Slide × Option PyError
  | [] => ([], none)
  | s :: rest =>
    let e0 : Option PyError :=
      if s.numTargets < 1 then some (.exception ("No targets selected")) else none
    let checked : Slide × Option PyError :=
      if s.numCalibrationPoints ≠ 3 then
        (s, some (.exception ("must have exactly 3 calibration points")))
      else
        ({ s with calibration_points := canonicalizePoints s.calibration_points }, e0)
    match checked.2 with
    | some e => (checked.1 :: rest, some e)
    | none =>
      let tail := SlideProcessor.doneLoop rest
      (checked.1 :: tail.1, tail.2)

/-- SlideProcessor.done (pages.py 701-764): the validation and reordering
loop; on success the two plain-text manifests and the per-target rasters are
written (file output, using the spec-modelled get_filename for the names),
which leaves the slide list unchanged. -/
def SlideProcessor.done_model (slides : List Slide) : List Slide × Option PyError :=
  let r := SlideProcessor.doneLoop slides
  match r.2 with
  | some _ => r
  | none =>
    let _coords := targetCoordinatesManifest r.1
    let _calib := calibrationPointsManifest r.1
    r

/-- STalignRunner.done (pages.py 1739-1742): raises "ERROR! Must Run STalign
before advancing" unless the first target of the first slide has a transform;
indexing slides[0] or targets[0] of an empty list is an IndexError. -/
def STalignRunner.done_model (slides : List Slide) : List Slide × Option PyError :=
  match slides with
  | [] => (slides, some .indexError)
  | s :: _ =>
    match s.targets with
    | [] => (slides, some .indexError)
    | t :: _ =>
      (slides,
        if t.transform = none then
          some (.exception ("ERROR! Must Run STalign before advancing"))
        else none)

/-- The navigation state owned by the application shell (main.py 36-37): the
current index into the fixed seven-page list, and the shared slide list of
the project record. -/
structure AppState where
  page_index : ℕ
  slides : List Slide
  deriving DecidableEq

/-- The length of the fixed page list (main.py 27-35): Starter,
SlideProcessor, TargetProcessor, STalignRunner, VisuAlignRunner,
RegionPicker, Exporter. -/
def numPages : ℕ := 7

/-- The outcome of a navigation button press: the app keeps running in a new
state, or the main window is destroyed (main.py 60-62). -/
inductive NavOutcome where
  | running (st : AppState)
  | exited
  deriving DecidableEq

/-- App.next_page (main.py 58-64), over an arbitrary family of page done()
methods, each modelled as a transition on the slide list together with an
optionally raised exception: done() of the current page runs first; if it
raises, the exception propagates out of the button callback before the index
assignment, so page_index is never touched (mutations done made before
raising persist); if it returns and the index is at the last page the app is
destroyed, otherwise the index advances by one. -/
def App.next_page (done : ℕ → List Slide → List Slide × Option PyError)
    (st : AppState) : NavOutcome × Option PyError :=
  let r := done st.page_index st.slides
  match r.2 with
  | some e => (.running { st with slides := r.1 }, some e)
  | none =>
    if st.page_index = numPages - 1 then (.exited, none)
    else (.running { page_index := st.page_index + 1, slides := r.1 }, none)

/-- Whether a click at integer location (x, y) falls inside the displayed
outline of a target (pages.py 2167-2168): inclusive on all four edges, with
width img_original.shape[1] and height img_original.shape[0]. -/
def clickInsideTarget (t : Target) (x y : ℤ) : Bool :=
  decide (t.x_offset ≤ x) && decide (x ≤ t.x_offset + t.width) &&
  decide (t.y_offset ≤ y) && decide (y ≤ t.y_offset + t.height)

/-- Exporter.activate (pages.py 2075): every target of every slide starts at
export status 1 — "1 for not exported, 2 for exported, negative for current
export group". -/
def Exporter.initial_statuses (targets : List Target) : List ℤ :=
  targets.map (fun _ => 1)

/-- Exporter.on_click (pages.py 2162-2171) restricted to a left-button click
inside the axes at integer location (x, y): walk the current slide's targets
in order and multiply the export status of the first one whose outline
contains the click by -1 (self.exported[slide][i] *= -1), then return;
every other status is untouched. -/
def Exporter.on_click_statuses : List Target → List ℤ → ℤ → ℤ → List ℤ
  | [], ss, _, _ => ss
  | _, [], _, _ => []
  | t :: ts, s :: ss, x, y =>
    if clickInsideTarget t x y then (-s) :: ss
    else s :: Exporter.on_click_statuses ts ss x y

/-- Exporter.toggle_select (pages.py 2211-2221): has_neg is whether any
status of the current slide is negative; each status that is negative — or
every status, when none is negative — is multiplied by -1. -/
def Exporter.toggle_select_statuses (ss : List ℤ) : List ℤ :=
  let has_neg := ss.any (fun s => decide (s < 0))
  ss.map (fun s => if decide (s < 0) || !has_neg then -s else s)

/-- The Python builtins referenced by the modelled fragments of pages.py. -/
def pyBuiltins : List String :=
  ["print", "len", "sum", "int", "float", "str", "enumerate", "range",
   "open", "sorted", "tuple", "list", "zip", "max", "min", "abs",
   "Exception"]

/-- The module-level names bound in pages.py: its import statements
(pages.py 1-19), the names brought in by the three star imports — from
images import * (its module aliases and the four model classes), from
constants import * (the ten constant bindings), from utils import * (its
module aliases, the optimizer LDDMM_3D_LBGFS and the figure wrapper) — and
the eight classes pages.py itself defines. No other module-level binding
exists in pages.py. -/
def pagesModuleNames : List String :=
  ["tk", "ttk", "ttkwidgets", "mpl", "os", "torch", "shapely", "pd", "np",
   "dbscan", "shutil", "glob", "datetime", "ABC", "abstractmethod",
   "nib", "nrrd", "ski", "STalign", "math",
   "Image", "Atlas", "Slide", "Target",
   "FSR", "DSR", "FSL", "DSL", "DEFAULT_STALIGN_PARAMS", "ALPHA",
   "BACKGROUND_PERCENTILE", "COMMITTED_COLOR", "REMOVABLE_COLOR",
   "NEW_COLOR",
   "Figure", "FigureCanvasTkAgg", "NavigationToolbar2Tk",
   "LDDMM_3D_LBGFS", "TkFigure",
   "Page", "Starter", "SlideProcessor", "TargetProcessor", "STalignRunner",
   "VisuAlignRunner", "RegionPicker", "Exporter"]

/-- Python name resolution for a name evaluated inside a method body of
pages.py: the function's local scope, then the module globals, then the
builtins; an unbound name raises NameError when evaluated. -/
def resolveName (n : String) (locals : List String) : Option PyError :=
  if n ∈ locals ∨ n ∈ pagesModuleNames ∨ n ∈ pyBuiltins then none
  else some (.nameError n)

/-- The local names bound in Exporter.export (pages.py 2174-2181) by the
time line 2185 evaluates cp_sorted: the two parameters, the three prior
assignments, and the with-statement binding. -/
def exportLocals : List String :=
  ["self", "event", "slide_index", "output_filename", "output_path", "file"]

/-- The local names bound in STalignRunner.get_transform (pages.py
1571-1588) by the time line 1589 evaluates the callee: the three parameters
and the prior assignments. -/
def getTransformLocals : List String :=
  ["self", "target", "device", "processed_points", "L", "T",
   "xI", "I", "xJ", "J"]

/-- Exporter.write_target_shapes (pages.py 2199-2209): one shape block per
entry of the target's insertion-ordered region_boundaries dict. PointCount
is the vertex count plus one; coordinate lines run j = 0..len(shape), each
indexing the vertex list at j % len(shape) so the first vertex is repeated
last; X lines add x_offset to the column entry shape[j][1], Y lines add
y_offset to the row entry shape[j][0]. (The polygons stored by RegionPicker
are non-empty; the getD default is never taken on them.) -/
def write_target_shapes (t : Target) (targetIndex numShapesExported : ℕ) :
    List String :=
  (t.region_boundaries.enum.map (fun p =>
    let i := p.1
    let name := p.2.1
    let shape := p.2.2
    let coords := ((List.range (shape.length + 1)).map (fun j =>
      let v := shape.getD (j % shape.length) (0, 0)
      ["<X_" ++ toString (j + 1) ++ ">" ++ toString (v.2 + t.x_offset) ++
         "</X_" ++ toString (j + 1) ++ ">",
       "<Y_" ++ toString (j + 1) ++ ">" ++ toString (v.1 + t.y_offset) ++
         "</Y_" ++ toString (j + 1) ++ ">"])).flatten
    ("<Shape_" ++ toString (numShapesExported + i + 1) ++ ">")
      :: ("<PointCount>" ++ toString (shape.length + 1) ++ "</PointCount>")
      :: ("<TransferID>" ++ name ++ "_" ++ toString targetIndex ++ "</TransferID>")
      :: coords ++ ["</Shape_" ++ toString (numShapesExported + i + 1) ++ ">"])).flatten

/-- The ShapeCount value written at pages.py 2189: the sum of
len(t.region_boundaries) over every target of the current slide, whether
queued for this batch or not. -/
def shapeCountValue (targets : List Target) : ℕ :=
  (targets.map (fun t => t.region_boundaries.length)).sum

/-- The shape-writing loop of Exporter.export (pages.py 2190-2195): targets
whose export status is positive are skipped unchanged; a queued target's
status is set to 2 and its shape blocks are appended, after which
numShapesExported advances by its boundary count. Returns the lines written
and the updated status list. -/
def exportTargetsLoop : List Target → List ℤ → ℕ → ℕ → List String × List ℤ
  | t :: ts, s :: ss, ti, numShapesExported =>
    if s > 0 then
      let r := exportTargetsLoop ts ss (ti + 1) numShapesExported
      (r.1, s :: r.2)
    else
      let blocks := write_target_shapes t ti numShapesExported
      let r := exportTargetsLoop ts ss (ti + 1)
        (numShapesExported + t.region_boundaries.length)
      (blocks ++ r.1, (2 : ℤ) :: r.2)
  | _, _, _, _ => ([], [])

/-- Exporter.export (pages.py 2174-2197) on the current slide: the sequence
of lines the with-block writes to the output XML file, the updated
per-target export statuses, and the exception, if any, that aborts the
write. The root element and the GlobalCoordinates flag are written, then
line 2185 evaluates the name cp_sorted, which is bound neither in the
function's local scope nor at module level nor as a builtin, so a NameError
propagates, the with-statement closes the file over the two lines already
written, and none of the remaining writes run. The fall-through branch
records what the rest of the body would write were cp_sorted bound to the
slide's (by then canonically ordered) calibration points. -/
def Exporter.export_run (slide : Slide) (statuses : List ℤ) :
    List String × List ℤ × Option PyError :=
  let header := ["<ImageData>", "<GlobalCoordinates>1</GlobalCoordinates>"]
  match resolveName ("cp_sorted") exportLocals with
  | some e => (header, statuses, some e)
  | none =>
    let calib := (slide.calibration_points.enum.map (fun p =>
      ["<X_CalibrationPoint_" ++ toString (p.1 + 1) ++ ">" ++ toString p.2.1 ++
         "</X_CalibrationPoint_" ++ toString (p.1 + 1) ++ ">",
       "<Y_CalibrationPoint_" ++ toString (p.1 + 1) ++ ">" ++ toString p.2.2 ++
         "</Y_CalibrationPoint_" ++ toString (p.1 + 1) ++ ">"])).flatten
    let shapeCountLine :=
      "<ShapeCount>" ++ toString (shapeCountValue slide.targets) ++ "</ShapeCount>"
    let r := exportTargetsLoop slide.targets statuses 0 0
    (header ++ calib ++ [shapeCountLine] ++ r.1 ++ ["</ImageData>"], r.2, none)

/-- STalignRunner.get_transform (pages.py 1571-1603): after processing the
landmark points and the initial affine, line 1589 calls LDDMM_3D_LBFGS;
utils.py 12 defines the optimizer under the spelling LDDMM_3D_LBGFS, and no
name in scope binds the called spelling, so evaluating the call raises
NameError before the optimizer ever runs. The ok branch — the result that
would be stored were the name bound — is unreachable on the source as
shipped. -/
def STalignRunner.get_transform_model : Except PyError TransformResult :=
  match resolveName ("LDDMM_3D_LBFGS") getTransformLocals with
  | some e => .error e
  | none => .ok .mk

/-- The per-target body of STalignRunner.run (pages.py 1649-1657) over one
slide's target list: for each target in order, get_transform is evaluated
and its result stored as target.transform, then the automatic segmentation
(get_segmentation, resampling the full-size label volume with nearest
neighbors through the learned transform) is stored as target.seg_stalign;
an exception propagates out of the run callback at once, leaving the
remaining targets untouched. -/
def STalignRunner.run_targets : List Target → List Target × Option PyError
  | [] => ([], none)
  | t :: ts =>
    match STalignRunner.get_transform_model with
    | .error e => (t :: ts, some e)
    | .ok tr =>
      let t' := { t with transform := some tr, seg_stalign := some () }
      let r := STalignRunner.run_targets ts
      (t' :: r.1, r.2)

/-- STalignRunner.run (pages.py 1639-1662) restricted to its per-target
effect: sequentially over every slide, then every target within the slide,
the registration and segmentation are computed and stored; the first
exception propagates, leaving later slides untouched. -/
def STalignRunner.run_model : List Slide → List Slide × Option PyError
  | [] => ([], none)
  | s :: rest =>
    let r := STalignRunner.run_targets s.targets
    match r.2 with
    | some e => ({ s with targets := r.1 } :: rest, some e)
    | none =>
      let r2 := STalignRunner.run_model rest
      ({ s with targets := r.1 } :: r2.1, r2.2)

/-- np.count_nonzero of a boolean mask over a 2D raster: the number of
pixels satisfying the predicate (images.py 283). -/
def countPixels (pred : ℚ → Bool) (img : List (List ℚ)) : ℕ :=
  (img.map (fun row => (row.filter pred).length)).sum

/-- The photometric inversion 1 - img of a single-channel raster. -/
def photometricInversion (img : List (List ℚ)) : List (List ℚ) :=
  img.map (fun row => row.map (fun v => 1 - v))

/-- Target.load_img (images.py 254-290) specialized to the claimed setting —
a single-channel raster with ds_factor = 1: the rgba-to-rgb conversion
(260-263), the spatial downscale (267-276) and the rgb-to-gray conversion
(279-280) are all identity on such input, so img is a copy of the raw
raster, to which the polarity heuristic of images.py 283-285 is applied:
the image is replaced by 1 - img exactly when
np.count_nonzero(img >= .9) > np.count_nonzero(img <= 0.1). -/
def Target.load_img_model (raw : List (List ℚ)) : List (List ℚ) :=
  if countPixels (fun v => decide (mkRat 9 10 ≤ v)) raw >
      countPixels (fun v => decide (v ≤ mkRat 1 10)) raw
  then photometricInversion raw
  else raw

/-- The canonical calibration ordering property claimed for a processed
slide: its stored points are a permutation of the original slide's points,
with the ascending-lexicographic (x, y) minimum first and the remaining two
points in ascending y order. -/
def canonicalOrderOf (original processed : Slide) : Prop :=
  processed.calibration_points.Perm original.calibration_points ∧
  ∃ p q r, processed.calibration_points = [p, q, r] ∧
    (∀ x ∈ processed.calibration_points, pointLexLe p x) ∧ q.2 ≤ r.2

namespace LDDMM

/-- The all-zero velocity field created at utils.py 50 when neither v nor xv
is supplied: torch.zeros((nt, n1, n2, n3, 3)) on the expanded grid, with
time-dimension length equal to the requested number of integration steps
nt, and a trailing component axis of length 3. -/
def initial_v (nt n1 n2 n3 : ℕ) : Fin nt → Fin n1 → Fin n2 → Fin n3 → Fin 3 → ℝ :=
  fun _ _ _ _ _ => 0

/-- The velocity-field input check of utils.py 39-52: when both v and xv are
given they are used as-is (and nt is reset to v.shape[0], here enforced by
the type); when neither is given, the all-zero field initial_v is created;
when exactly one is given, an exception is raised. The grid xv is carried as
its per-axis spacing only, which is all the energy below consumes. -/
def init_velocity (nt n1 n2 n3 : ℕ)
    (v : Option (Fin nt → Fin n1 → Fin n2 → Fin n3 → Fin 3 → ℝ))
    (xv : Option (Fin 3 → ℝ)) :
    Except PyError (Fin nt → Fin n1 → Fin n2 → Fin n3 → Fin 3 → ℝ) :=
  match v, xv with
  | some v0, some _ => .ok v0
  | none, none => .ok (initial_v nt n1 n2 n3)
  | _, _ => .error (.exception ("If inputting an initial v, must input both xv and v"))

/-- The natural frequency coordinate fv of utils.py 56:
fv[axis][k] = k / n / d for axis length n and grid spacing d. -/
noncomputable def freq (n : ℕ) (d : ℝ) (k : Fin n) : ℝ := (k : ℝ) / (n : ℝ) / d

/-- The regularization kernel LL of utils.py 59:
(1 + 2 a^2 * sum over the three spatial axes of (1 - cos(2 pi f d)) / d^2)
raised to the power p * 2, evaluated at one frequency-grid entry. -/
noncomputable def LL (a p : ℝ) (n1 n2 n3 : ℕ) (dv : Fin 3 → ℝ)
    (k1 : Fin n1) (k2 : Fin n2) (k3 : Fin n3) : ℝ :=
  (1 + 2 * a ^ 2 *
    ((1 - Real.cos (2 * Real.pi * freq n1 (dv 0) k1 * dv 0)) / (dv 0) ^ 2 +
     (1 - Real.cos (2 * Real.pi * freq n2 (dv 1) k2 * dv 1)) / (dv 1) ^ 2 +
     (1 - Real.cos (2 * Real.pi * freq n3 (dv 2) k3 * dv 2)) / (dv 2) ^ 2)) ^ (p * 2)

/-- torch.fft.fftn(v, dim=(1,2)) of utils.py 170 at one output entry: the 2D
discrete Fourier transform of the velocity field along its two in-plane
spatial axes — the sum over (i1, i2) of
v[t, i1, i2, i3, c] * exp(-2 pi I (k1 i1 / n1 + k2 i2 / n2)). -/
noncomputable def fft2 {nt n1 n2 n3 : ℕ}
    (v : Fin nt → Fin n1 → Fin n2 → Fin n3 → Fin 3 → ℝ)
    (t : Fin nt) (k1 : Fin n1) (k2 : Fin n2) (i3 : Fin n3) (c : Fin 3) : ℂ :=
  ∑ i1 : Fin n1, ∑ i2 : Fin n2,
    (v t i1 i2 i3 c : ℂ) *
      Complex.exp ((-2) * Real.pi * Complex.I *
        ((((k1 : ℕ) * (i1 : ℕ) : ℕ) : ℂ) / (n1 : ℂ) +
         (((k2 : ℕ) * (i2 : ℕ) : ℕ) : ℂ) / (n2 : ℂ)))

/-- The regularization energy ER of utils.py 130 and 170:
torch.sum(torch.sum(|fftn(v, dim=(1,2))|^2, dim=(0,-1)) * LL) * DV / 2
/ v.shape[1] / v.shape[2] / sigmaR^2, with DV the product of the
velocity-grid spacings (utils.py 63). -/
noncomputable def ER {nt n1 n2 n3 : ℕ} (a p sigmaR : ℝ) (dv : Fin 3 → ℝ)
    (v : Fin nt → Fin n1 → Fin n2 → Fin n3 → Fin 3 → ℝ) : ℝ :=
  (∑ k1 : Fin n1, ∑ k2 : Fin n2, ∑ i3 : Fin n3,
      (∑ t : Fin nt, ∑ c : Fin 3, Complex.abs (fft2 v t k1 k2 i3 c) ^ 2) *
        LL a p n1 n2 n3 dv k1 k2 i3) *
    (dv 0 * dv 1 * dv 2) / 2 / (n1 : ℝ) / (n2 : ℝ) / sigmaR ^ 2

end LDDMM

/-- Example target with zero landmark pairs (a freshly constructed crop). -/
def exTarget0 : Target := Target.init 0 0 4 6

/-- Example slide with zero calibration points. -/
def exEmptySlide : Slide := Slide.init ("slideA.jpg")

/-- Example target for the Exporter click model: offset (5, 7), width 10,
height 4, so its displayed outline contains the click location (6, 8). -/
def exTargetBox : Target := Target.init 5 7 4 10

/-- Example target with one boundary polygon of one vertex, offset (5, 7). -/
def exTargetA : Target :=
  { Target.init 5 7 3 3 with region_boundaries := [("cortex_0", [((1 : ℤ), (2 : ℤ))])] }

/-- Second example target with one boundary polygon, offset (50, 60). -/
def exTargetB : Target :=
  { Target.init 50 60 3 3 with region_boundaries := [("thalamus_0", [((0 : ℤ), (1 : ℤ))])] }

/-- Example slide for the Exporter: three canonically ordered calibration
points and one target carrying one boundary polygon. -/
def exSlideC1 : Slide :=
  { filename := "slideA.jpg", targets := [exTargetA], numTargets := 1,
    calibration_points := [((10 : ℤ), (10 : ℤ)), (90, 10), (50, 80)],
    numCalibrationPoints := 3 }

/-- Example slide for the STalignRunner: one target, no transform yet. -/
def exSlideRun : Slide :=
  { filename := "slideA.jpg", targets := [exTarget0], numTargets := 1,
    calibration_points := [((10 : ℤ), (10 : ℤ)), (90, 10), (50, 80)],
    numCalibrationPoints := 3 }

/-- Example invalid slide: zero targets and zero calibration points. -/
def exBadSlide : Slide := Slide.init ("slideB.jpg")

/-- Example navigation state: the wizard sitting on page index 1
(SlideProcessor) over one invalid slide. -/
def exApp : AppState := { page_index := 1, slides := [exBadSlide] }

/-- Example input slide for the canonicalization: the three calibration
points committed in a non-canonical order. -/
def exSlideIn : Slide :=
  { filename := "slideA.jpg", targets := [exTarget0], numTargets := 1,
    calibration_points := [((90 : ℤ), (10 : ℤ)), (10, 10), (50, 80)],
    numCalibrationPoints := 3 }

/-- The slide exSlideIn after SlideProcessor.done reorders its points. -/
def exSlideOut : Slide :=
  { exSlideIn with
    calibration_points := [((10 : ℤ), (10 : ℤ)), (90, 10), (50, 80)] }

/-- Example raster whose count of pixels at least 0.9 (three) exceeds its
count of pixels at most 0.1 (one). -/
def exRawBright : List (List ℚ) := [[1, mkRat 19 20], [mkRat 1 20, 1]]

/-- Example raster whose count of pixels at least 0.9 (one) does not exceed
its count of pixels at most 0.1 (three). -/
def exRawDark : List (List ℚ) := [[0, mkRat 1 20], [mkRat 19 20, 0]]

end DART

namespace DART

/-- Helper: one landmark method call preserves the parallel-lists invariant. -/
theorem applyLandmarkOp_preserves (t : Target) (op : LandmarkOp)
    (h : landmarksParallel t) : landmarksParallel (applyLandmarkOp t op) := by
  obtain ⟨h1, h2, h3⟩ := h
  cases op with
  | add tp ap =>
    simp only [applyLandmarkOp, Target.add_landmarks, landmarksParallel,
      List.length_append, List.length_cons, List.length_nil]
    omega
  | remove =>
    simp only [applyLandmarkOp, Target.remove_landmarks]
    by_cases hpos : t.num_landmarks > 0
    · rw [if_pos hpos]
      simp only [landmarksParallel, List.length_dropLast]
      omega
    · rw [if_neg hpos]
      exact ⟨h1, h2, h3⟩

/-- Helper: the invariant is preserved along any sequence of landmark calls. -/
theorem foldl_landmarkOps_invariant :
    ∀ (ops : List LandmarkOp) (t : Target), landmarksParallel t →
      landmarksParallel (ops.foldl applyLandmarkOp t)
  | [], _, h => h
  | op :: ops, t, h =>
    foldl_landmarkOps_invariant ops (applyLandmarkOp t op)
      (applyLandmarkOp_preserves t op h)

/-- Claim C10: for every Target, every sequence of add_landmarks and
remove_landmarks calls preserves the invariant that the two landmark lists
are parallel — landmarks.target and landmarks.atlas have equal length, both
equal to num_landmarks, which is never negative. -/
theorem landmark_lists_stay_parallel (ops : List LandmarkOp) (x y h w : ℤ) :
    landmarksParallel (ops.foldl applyLandmarkOp (Target.init x y h w)) :=
  foldl_landmarkOps_invariant ops (Target.init x y h w)
    (by simp [landmarksParallel, Target.init])

/-- Claim C5 counterexample: a Target holding zero landmark pairs does not
fail on remove_landmarks — the call returns without any error and leaves the
target unchanged, refuting that it fails with an EmptyCollection error. -/
theorem remove_landmarks_silent_on_empty :
    exTarget0.num_landmarks = 0 ∧
    Target.remove_landmarks exTarget0 = (exTarget0, none) := by
  constructor
  · rfl
  · decide

/-- Claim C5 (corrected): removing a calibration point from a slide whose
stored count is not positive raises the EmptyCollection error and leaves the
slide unchanged, while removing a landmark pair from a target whose stored
count is not positive is a silent no-op: the method returns without error
and the landmark lists and count are unchanged. -/
theorem remove_on_empty_collections :
    (∀ s : Slide, ¬ s.numCalibrationPoints > 0 →
      Slide.remove_calibration_point s =
        (s, some (.exception ("No Calibration Points to remove")))) ∧
    (∀ t : Target, ¬ t.num_landmarks > 0 →
      Target.remove_landmarks t = (t, none)) := by
  constructor
  · intro s hs
    unfold Slide.remove_calibration_point
    rw [if_neg hs]
  · intro t ht
    unfold Target.remove_landmarks
    rw [if_neg ht]

/-- Witness for the corrected claim C5, at a slide and a target that each
hold zero elements of the respective collection. -/
theorem remove_on_empty_collections_witness :
    (Slide.remove_calibration_point exEmptySlide =
        (exEmptySlide, some (.exception ("No Calibration Points to remove")))) ∧
    (Target.remove_landmarks exTarget0 = (exTarget0, none)) :=
  ⟨remove_on_empty_collections.1 exEmptySlide (by decide),
   remove_on_empty_collections.2 exTarget0 (by decide)⟩

/-- Claim C4 counterexample: clicking inside the outline of a target whose
export status is 2 ("already exported in a previous batch") changes its
status — the sign flip of pages.py 2169 turns it into -2 — refuting that the
selection operations never change an already-exported target's status. -/
theorem exporter_click_requeues_exported :
    Exporter.on_click_statuses [exTargetBox] [(2 : ℤ)] 6 8 ≠ [(2 : ℤ)] := by
  decide

/-- Claim C4 (corrected): both selection operations act by unconditional sign
flips, regardless of the stored status. Clicking inside a target's outline
multiplies its status by -1, so 1 and -1 toggle but an already-exported
status 2 becomes -2 (re-queued); the slide-level toggle flips every negative
status back to positive when anything is queued, and otherwise flips every
status — including an already-exported 2 — to negative. -/
theorem exporter_selection_flips_signs :
    (∀ s : ℤ, Exporter.on_click_statuses [exTargetBox] [s] 6 8 = [-s]) ∧
    (∀ ss : List ℤ, Exporter.toggle_select_statuses ss =
      if ss.any (fun s => decide (s < 0)) then
        ss.map (fun s => if s < 0 then -s else s)
      else ss.map (fun s => -s)) := by
  constructor
  · intro s
    have hin : clickInsideTarget exTargetBox 6 8 = true := by decide
    simp [Exporter.on_click_statuses, hin]
  · intro ss
    unfold Exporter.toggle_select_statuses
    by_cases h : ss.any (fun s => decide (s < 0)) = true
    · rw [if_pos h, h]
      simp
    · rw [if_neg h]
      rw [Bool.not_eq_true] at h
      rw [h]
      simp

/-- Claim C8: Target image loading of a single-channel image with downscale
factor 1 stores the photometric inversion 1 - img exactly when the count of
pixels with intensity at least 0.9 strictly exceeds the count of pixels with
intensity at most 0.1, and stores the unmodified image when the counts are
equal or reversed. -/
theorem target_polarity_heuristic (raw : List (List ℚ)) :
    (countPixels (fun v => decide (mkRat 9 10 ≤ v)) raw >
        countPixels (fun v => decide (v ≤ mkRat 1 10)) raw →
      Target.load_img_model raw = photometricInversion raw) ∧
    (¬ (countPixels (fun v => decide (mkRat 9 10 ≤ v)) raw >
        countPixels (fun v => decide (v ≤ mkRat 1 10)) raw) →
      Target.load_img_model raw = raw) := by
  constructor
  · intro h
    unfold Target.load_img_model
    rw [if_pos h]
  · intro h
    unfold Target.load_img_model
    rw [if_neg h]

/-- Witness for claim C8: a mostly-bright raster (three pixels at least 0.9,
one at most 0.1) is inverted; a mostly-dark raster (counts reversed) is
returned unchanged. -/
theorem target_polarity_heuristic_witness :
    Target.load_img_model exRawBright = photometricInversion exRawBright ∧
    Target.load_img_model exRawDark = exRawDark :=
  ⟨(target_polarity_heuristic exRawBright).1 (by decide),
   (target_polarity_heuristic exRawDark).2 (by decide)⟩

end DART

namespace DART

/-- Claim C1 (code bug, shown on an input): exporting a slide that has three
calibration points and one queued target with one boundary polygon writes
only the root element and the GlobalCoordinates flag: line 2185 of pages.py
then evaluates the unbound name cp_sorted and raises NameError, so the
closed file contains no calibration-point element at all and the export
statuses are left untouched. -/
theorem exporter_export_name_error :
    Exporter.export_run exSlideC1 [(-1 : ℤ)] =
      (["<ImageData>", "<GlobalCoordinates>1</GlobalCoordinates>"],
       [(-1 : ℤ)], some (.nameError ("cp_sorted"))) := by
  decide

/-- Claim C2 (code bug, shown on an input): pages.py 1589 calls
LDDMM_3D_LBFGS, but utils.py 12 defines the optimizer under the spelling
LDDMM_3D_LBGFS and no name in scope binds the called spelling; running
STalignRunner on a project of one slide holding one target therefore raises
NameError at the very first target — the optimizer is never invoked and no
target receives a transform or an automatic segmentation. -/
theorem stalign_run_raises_name_error :
    ("LDDMM_3D_LBFGS" ∉ pagesModuleNames ∧ "LDDMM_3D_LBGFS" ∈ pagesModuleNames) ∧
    STalignRunner.run_model [exSlideRun] =
      ([exSlideRun], some (.nameError ("LDDMM_3D_LBFGS"))) ∧
    exSlideRun.targets.map Target.transform = [none] ∧
    exSlideRun.targets.map Target.seg_stalign = [none] := by
  refine ⟨⟨by decide, by decide⟩, by decide, by decide, by decide⟩

/-- Claim C3 (code bug, shown on an input): on a slide with two targets, one
boundary polygon each, of which only the first is queued (status -1), the
ShapeCount expression of pages.py 2189 sums over all targets of the slide
and yields 2, while the loop of pages.py 2190-2195 writes the shape block of
the queued target only — a single block — and transitions only the queued
target to status 2. -/
theorem exporter_shapecount_counts_unqueued :
    shapeCountValue [exTargetA, exTargetB] = 2 ∧
    exportTargetsLoop [exTargetA, exTargetB] [(-1 : ℤ), 1] 0 0 =
      (["<Shape_1>", "<PointCount>2</PointCount>",
        "<TransferID>cortex_0_0</TransferID>",
        "<X_1>7</X_1>", "<Y_1>8</Y_1>", "<X_2>7</X_2>", "<Y_2>8</Y_2>",
        "</Shape_1>"],
       [2, 1]) := by
  refine ⟨by decide, by decide⟩

end DART

namespace DART

/-- Helper: the 2D in-plane discrete Fourier transform of the all-zero
velocity field vanishes at every output entry. -/
theorem fft2_initial_v_eq_zero (nt n1 n2 n3 : ℕ)
    (t : Fin nt) (k1 : Fin n1) (k2 : Fin n2) (i3 : Fin n3) (c : Fin 3) :
    LDDMM.fft2 (LDDMM.initial_v nt n1 n2 n3) t k1 k2 i3 c = 0 := by
  unfold LDDMM.fft2 LDDMM.initial_v
  simp

/-- Claim C9: when no velocity field is supplied the optimizer initializes
it as all zeros with time-dimension length equal to the requested number of
integration steps, and on that zero field the regularization energy term ER
— the LL-weighted sum of squared magnitudes of the in-plane 2D FFT, scaled
by the spacing product and divided by (2 · rows · cols · sigmaR²) —
evaluates to exactly 0, for every grid size, spacing and parameter value. -/
theorem lddmm_zero_velocity_regularization (nt n1 n2 n3 : ℕ)
    (a p sigmaR : ℝ) (dv : Fin 3 → ℝ) :
    LDDMM.init_velocity nt n1 n2 n3 none none =
      .ok (LDDMM.initial_v nt n1 n2 n3) ∧
    (∀ t i1 i2 i3 c, LDDMM.initial_v nt n1 n2 n3 t i1 i2 i3 c = 0) ∧
    LDDMM.ER a p sigmaR dv (LDDMM.initial_v nt n1 n2 n3) = 0 := by
  refine ⟨rfl, fun _ _ _ _ _ => rfl, ?_⟩
  unfold LDDMM.ER
  simp [fft2_initial_v_eq_zero]

end DART

namespace DART

/-- Helper: when the current page's done() raises, App.next_page leaves the
page index untouched (the exception propagates before the index update). -/
theorem next_page_error_keeps_index
    (done : ℕ → List Slide → List Slide × Option PyError)
    (st st' : AppState) (e : PyError)
    (h : App.next_page done st = (.running st', some e)) :
    st'.page_index = st.page_index := by
  simp only [App.next_page] at h
  split at h
  · injection h with h1 h2
    injection h1 with h1
    rw [← h1]
  · split at h
    · exact absurd h (by simp)
    · injection h with h1 h2
      exact absurd h2 (by simp)

/-- Helper: when done() returns without raising and the app keeps running,
the page index advances by exactly one. -/
theorem next_page_ok_advances
    (done : ℕ → List Slide → List Slide × Option PyError)
    (st st' : AppState)
    (h : App.next_page done st = (.running st', none)) :
    st'.page_index = st.page_index + 1 := by
  simp only [App.next_page] at h
  split at h
  · injection h with h1 h2
    exact absurd h2 (by simp)
  · split at h
    · exact absurd h (by simp)
    · injection h with h1 h2
      injection h1 with h1
      rw [← h1]

/-- Helper: the error component of SlideProcessor.done equals that of its
validation loop (the success-path manifest writing raises nothing). -/
theorem slideProcessor_done_model_snd (slides : List Slide) :
    (SlideProcessor.done_model slides).2 = (SlideProcessor.doneLoop slides).2 := by
  unfold SlideProcessor.done_model
  cases h : (SlideProcessor.doneLoop slides).2 <;> simp [h]

/-- Helper: the SlideProcessor validation loop raises exactly when some
slide has zero targets or a calibration-point count other than three. -/
theorem slideProcessor_doneLoop_raises_iff (slides : List Slide) :
    (SlideProcessor.doneLoop slides).2.isSome = true ↔
      ∃ s ∈ slides, s.numTargets < 1 ∨ s.numCalibrationPoints ≠ 3 := by
  induction slides with
  | nil => simp [SlideProcessor.doneLoop]
  | cons s rest ih =>
    by_cases h3 : s.numCalibrationPoints ≠ 3
    · simp only [SlideProcessor.doneLoop, if_pos h3]
      simp only [Option.isSome_some, List.mem_cons]
      constructor
      · intro _
        exact ⟨s, Or.inl rfl, Or.inr h3⟩
      · intro _
        trivial
    · by_cases h1 : s.numTargets < 1
      · simp only [SlideProcessor.doneLoop, if_neg h3, if_pos h1]
        simp only [Option.isSome_some, List.mem_cons]
        constructor
        · intro _
          exact ⟨s, Or.inl rfl, Or.inl h1⟩
        · intro _
          trivial
      · simp only [SlideProcessor.doneLoop, if_neg h3, if_neg h1]
        simp only [List.mem_cons]
        constructor
        · intro hx
          obtain ⟨s2, hs2, hbad⟩ := ih.mp hx
          exact ⟨s2, Or.inr hs2, hbad⟩
        · intro hx
          obtain ⟨s2, hs2, hbad⟩ := hx
          rcases hs2 with rfl | hs2
          · rcases hbad with hb | hb
            · exact absurd hb h1
            · exact absurd hb h3
          · exact ih.mpr ⟨s2, hs2, hbad⟩

/-- Helper: STalignRunner.done raises when the first target of the first
slide has no transform. -/
theorem stalign_done_raises (slides : List Slide) (s : Slide) (t : Target)
    (h1 : slides.head? = some s) (h2 : s.targets.head? = some t)
    (h3 : t.transform = none) :
    (STalignRunner.done_model slides).2.isSome = true := by
  cases slides with
  | nil => simp at h1
  | cons s0 rest =>
    simp only [List.head?_cons, Option.some.injEq] at h1
    subst h1
    cases hts : s0.targets with
    | nil => rw [hts] at h2; simp at h2
    | cons t0 ts' =>
      rw [hts] at h2
      simp only [List.head?_cons, Option.some.injEq] at h2
      subst h2
      simp [STalignRunner.done_model, hts, h3]

/-- Claim C6: pressing Next runs the current page's done() first; whenever
done() raises the wizard's page index is not mutated (for any family of page
done methods), and the index advances by one exactly when done() returns
without raising away from the last page; in particular SlideProcessor's
done() raises exactly when some slide has zero targets or a number of
calibration points other than three, and STalignRunner's done() raises when
the first target of the first slide has no transform. -/
theorem next_page_index_gating :
    (∀ (done : ℕ → List Slide → List Slide × Option PyError)
        (st st' : AppState) (e : PyError),
      App.next_page done st = (.running st', some e) →
        st'.page_index = st.page_index) ∧
    (∀ (done : ℕ → List Slide → List Slide × Option PyError)
        (st st' : AppState),
      App.next_page done st = (.running st', none) →
        st'.page_index = st.page_index + 1) ∧
    (∀ slides : List Slide,
      (SlideProcessor.done_model slides).2.isSome = true ↔
        ∃ s ∈ slides, s.numTargets < 1 ∨ s.numCalibrationPoints ≠ 3) ∧
    (∀ (slides : List Slide) (s : Slide) (t : Target),
      slides.head? = some s → s.targets.head? = some t →
        t.transform = none →
        (STalignRunner.done_model slides).2.isSome = true) := by
  refine ⟨next_page_error_keeps_index, next_page_ok_advances, ?_, stalign_done_raises⟩
  intro slides
  rw [slideProcessor_done_model_snd]
  exact slideProcessor_doneLoop_raises_iff slides

/-- Witness for claim C6: on a wizard state sitting at page index 1 over one
slide with no targets and no calibration points, pressing Next with the
SlideProcessor done raises and keeps the index at 1; the SlideProcessor
raise condition and the STalignRunner raise condition hold at the concrete
bad inputs. -/
theorem next_page_index_gating_witness :
    exApp.page_index = exApp.page_index ∧
    (SlideProcessor.done_model [exBadSlide]).2.isSome = true ∧
    (STalignRunner.done_model [exSlideRun]).2.isSome = true :=
  ⟨next_page_index_gating.1 (fun _ s => SlideProcessor.done_model s) exApp exApp
      (.exception ("must have exactly 3 calibration points")) (by decide),
   (next_page_index_gating.2.2.1 [exBadSlide]).mpr
      ⟨exBadSlide, by decide, by decide⟩,
   next_page_index_gating.2.2.2 [exSlideRun] exSlideRun exTarget0
      (by decide) (by decide) (by decide)⟩

end DART

namespace DART

/-- Helper: pointLexLe is reflexive. -/
theorem pointLexLe_refl (x : Point) : pointLexLe x x :=
  Or.inr ⟨rfl, le_refl _⟩

/-- Helper: on a three-point list, the canonicalization produces a
permutation of the input whose first point is a lexicographic minimum of
the input and whose remaining two points are in ascending y order. -/
theorem canonicalizePoints_three (l : List Point) (hl : l.length = 3) :
    ∃ p q r, canonicalizePoints l = [p, q, r] ∧ l.Perm [p, q, r] ∧
      (∀ x ∈ l, pointLexLe p x) ∧ q.2 ≤ r.2 := by
  have hperm : (List.insertionSort pointLexLe l).Perm l :=
    List.perm_insertionSort pointLexLe l
  have hsorted : List.Sorted pointLexLe (List.insertionSort pointLexLe l) :=
    List.sorted_insertionSort pointLexLe l
  have hlen : (List.insertionSort pointLexLe l).length = 3 := by
    rw [hperm.length_eq]; exact hl
  obtain ⟨a, b, c, habc⟩ := List.length_eq_three.mp hlen
  rw [habc] at hperm hsorted
  have hab : pointLexLe a b := (List.sorted_cons.mp hsorted).1 b (by simp)
  have hac : pointLexLe a c := (List.sorted_cons.mp hsorted).1 c (by simp)
  have hmem : ∀ x ∈ l, x = a ∨ x = b ∨ x = c := by
    intro x hx
    have hx2 : x ∈ [a, b, c] := hperm.symm.subset hx
    simpa using hx2
  have hcanon : canonicalizePoints l = a :: List.insertionSort yLe [b, c] := by
    unfold canonicalizePoints
    rw [habc]
  by_cases hbc : yLe b c
  · refine ⟨a, b, c, ?_, hperm.symm, ?_, hbc⟩
    · rw [hcanon]
      simp [List.insertionSort, List.orderedInsert, hbc]
    · intro x hx
      rcases hmem x hx with rfl | rfl | rfl
      · exact pointLexLe_refl x
      · exact hab
      · exact hac
  · refine ⟨a, c, b, ?_, ?_, ?_, ?_⟩
    · rw [hcanon]
      simp [List.insertionSort, List.orderedInsert, hbc]
    · exact hperm.symm.trans (List.Perm.cons a (List.Perm.swap c b []))
    · intro x hx
      rcases hmem x hx with rfl | rfl | rfl
      · exact pointLexLe_refl x
      · exact hab
      · exact hac
    · unfold yLe at hbc
      omega

/-- Helper: the canonicalization depends only on the multiset of input
points — permuting the input does not change the output. -/
theorem canonicalizePoints_perm_invariant (l l' : List Point)
    (h : l.Perm l') : canonicalizePoints l = canonicalizePoints l' := by
  have hs : List.insertionSort pointLexLe l = List.insertionSort pointLexLe l' :=
    List.eq_of_perm_of_sorted
      ((List.perm_insertionSort _ l).trans (h.trans (List.perm_insertionSort _ l').symm))
      (List.sorted_insertionSort _ l) (List.sorted_insertionSort _ l')
  unfold canonicalizePoints
  rw [hs]

/-- Helper: SlideProcessor.done is the validation loop in both components
(the success-path manifest writing leaves the slide list unchanged). -/
theorem slideProcessor_done_model_eq (slides : List Slide) :
    SlideProcessor.done_model slides = SlideProcessor.doneLoop slides := by
  unfold SlideProcessor.done_model
  cases h : (SlideProcessor.doneLoop slides).2 <;> simp [h]

/-- Helper: a successful run of the SlideProcessor validation loop
canonically reorders every slide's calibration points. -/
theorem doneLoop_success_canonical :
    ∀ (slides out : List Slide),
      (∀ s ∈ slides, (s.calibration_points.length : ℤ) = s.numCalibrationPoints) →
      SlideProcessor.doneLoop slides = (out, none) →
      List.Forall₂ canonicalOrderOf slides out := by
  intro slides
  induction slides with
  | nil =>
    intro out _ h
    unfold SlideProcessor.doneLoop at h
    injection h with h1 h2
    subst h1
    exact List.Forall₂.nil
  | cons s rest ih =>
    intro out hwf h
    by_cases h3 : s.numCalibrationPoints ≠ 3
    · simp only [SlideProcessor.doneLoop, if_pos h3] at h
      exact absurd (congrArg Prod.snd h) (by simp)
    · by_cases h1 : s.numTargets < 1
      · simp only [SlideProcessor.doneLoop, if_neg h3, if_pos h1] at h
        exact absurd (congrArg Prod.snd h) (by simp)
      · simp only [SlideProcessor.doneLoop, if_neg h3, if_neg h1] at h
        have h2 : (SlideProcessor.doneLoop rest).2 = none := by
          have hx := congrArg Prod.snd h
          simpa using hx
        have hout : out =
            { s with calibration_points := canonicalizePoints s.calibration_points }
              :: (SlideProcessor.doneLoop rest).1 := by
          have hx := congrArg Prod.fst h
          simpa using hx.symm
        subst hout
        refine List.Forall₂.cons ?_ ?_
        · have hlen : s.calibration_points.length = 3 := by
            have hwfs := hwf s (by simp)
            omega
          obtain ⟨p, q, r, hc, hpm, hmin, hy⟩ :=
            canonicalizePoints_three s.calibration_points hlen
          refine ⟨?_, p, q, r, ?_, ?_, hy⟩
          · simp only [hc]
            exact hpm.symm
          · simpa using hc
          · intro x hx
            simp only [hc] at hx
            exact hmin x (hpm.mem_iff.mpr hx)
        · apply ih (SlideProcessor.doneLoop rest).1
          · intro s2 hs2
            exact hwf s2 (by simp [hs2])
          · rw [← h2]

/-- Claim C7: a successful SlideProcessor done() reorders every slide's
three calibration points so that the first is the ascending-lexicographic
(x, y) minimum and the remaining two are in ascending y order; in
particular the points [(10,10), (90,10), (50,80)] presented in any input
order come out exactly as [(10,10), (90,10), (50,80)]. -/
theorem slideProcessor_canonicalizes_points :
    (∀ (slides out : List Slide),
      (∀ s ∈ slides, (s.calibration_points.length : ℤ) = s.numCalibrationPoints) →
      SlideProcessor.done_model slides = (out, none) →
      List.Forall₂ canonicalOrderOf slides out) ∧
    (∀ l : List Point, l.Perm [((10 : ℤ), (10 : ℤ)), (90, 10), (50, 80)] →
      canonicalizePoints l = [(10, 10), (90, 10), (50, 80)]) := by
  constructor
  · intro slides out hwf h
    apply doneLoop_success_canonical slides out hwf
    rw [← slideProcessor_done_model_eq]
    exact h
  · intro l h
    rw [canonicalizePoints_perm_invariant l _ h]
    decide

/-- Witness for claim C7: a slide whose three points were committed in a
non-canonical order passes done() and comes out canonically reordered, and
one concrete permutation of the example points canonicalizes to the claimed
list. -/
theorem slideProcessor_canonicalizes_points_witness :
    List.Forall₂ canonicalOrderOf [exSlideIn] [exSlideOut] ∧
    canonicalizePoints [((90 : ℤ), (10 : ℤ)), (10, 10), (50, 80)] =
      [(10, 10), (90, 10), (50, 80)] :=
  ⟨slideProcessor_canonicalizes_points.1 [exSlideIn] [exSlideOut]
      (by decide) (by decide),
   slideProcessor_canonicalizes_points.2
      [((90 : ℤ), (10 : ℤ)), (10, 10), (50, 80)]
      (List.Perm.swap ((10 : ℤ), (10 : ℤ)) ((90 : ℤ), (10 : ℤ)) [((50 : ℤ), (80 : ℤ))])⟩

end DART
